import Mathlib

/-!
Verification of the room-availability and booking-admission core of the
`fastapi_hotels` repository, together with its facility-reconciliation
operation, as a shallow embedding in Lean 4.

Calendar dates are embedded as integers (a day ordinal); the source's
`datetime.date` is a totally ordered type and only order comparisons occur.
Database tables are embedded as Lean lists of records; SQL queries over them
are embedded as list computations that mirror the query structure
(filter = WHERE, group-by/count = `roomsCount`, left join + coalesce =
`roomsBookedLookup`, IN-subquery = membership in the subquery's list).
-/

namespace FastapiHotels

/-- A row of the `rooms` table (`RoomsModel`): id, owning hotel,
price and quantity (number of physical units of this room type). -/
structure Room where
  id : Nat
  hotel_id : Nat
  price : Int
  quantity : Int
  deriving Repr, DecidableEq

/-- A row of the `bookings` table (`BookingsModel`). -/
structure Booking where
  id : Nat
  user_id : Nat
  room_id : Nat
  date_from : Int
  date_to : Int
  price : Int
  deriving Repr, DecidableEq

/-- A row of the `hotels` table (`HotelsModel`). -/
structure Hotel where
  id : Nat
  title : String
  location : String
  deriving Repr, DecidableEq

/-- A row of the `room_facilities` association table (`RoomFacilitiesModel`). -/
structure RoomFacility where
  room_id : Nat
  facility_id : Nat
  deriving Repr, DecidableEq

/-- The relational store: the tables the core operates on, plus the
auto-increment counter for booking primary keys. -/
structure DB where
  rooms : List Room
  hotels : List Hotel
  bookings : List Booking
  room_facilities : List RoomFacility
  next_booking_id : Nat
  deriving Repr, DecidableEq

/-- The WHERE clause of the `rooms_count` CTE in
`rooms_ids_for_booking` (src/repositories/utils.py) and in
`RoomsRepository.get_filtered_by_time` (src/repositories/rooms.py):
`BookingsModel.date_from <= date_to, BookingsModel.date_to >= date_from`.
Note both comparisons are NON-strict in the source. -/
def bookingOverlapsQuery (date_from date_to : Int) (b : Booking) : Bool :=
  decide (b.date_from ≤ date_to) && decide (b.date_to ≥ date_from)

/-- The filtered bookings feeding the `rooms_count` CTE. -/
def overlappingBookings (date_from date_to : Int) (bookings : List Booking) :
    List Booking :=
  bookings.filter (bookingOverlapsQuery date_from date_to)

/-- The `rooms_count` CTE: group the overlap-filtered bookings by `room_id`
and count rows per group. One output row `(room_id, rooms_booked)` per
distinct room id occurring in the filtered bookings. -/
def roomsCount (date_from date_to : Int) (bookings : List Booking) :
    List (Nat × Nat) :=
  let filtered := overlappingBookings date_from date_to bookings
  ((filtered.map Booking.room_id).dedup).map
    (fun r => (r, (filtered.filter (fun b => b.room_id == r)).length))

/-- The LEFT JOIN of a room id against the `rooms_count` CTE followed by
`coalesce(rooms_booked, 0)`: a missing group row contributes 0. -/
def roomsBookedLookup (rc : List (Nat × Nat)) (r : Nat) : Nat :=
  match rc.find? (fun p => p.1 == r) with
  | some p => p.2
  | none => 0

/-- The `rooms_left` column of the `rooms_left_table` CTE:
`quantity - coalesce(rooms_booked, 0)` for one `rooms` row. -/
def roomsLeft (date_from date_to : Int) (bookings : List Booking)
    (room : Room) : Int :=
  room.quantity - (roomsBookedLookup (roomsCount date_from date_to bookings) room.id : Int)

/-- The `get_rooms_ids_for_hotel` subquery:
`select RoomsModel.id`, filtered by `hotel_id` when one is given. -/
def roomsIdsForHotel (hotel_id : Option Nat) (rooms : List Room) : List Nat :=
  (match hotel_id with
   | none => rooms
   | some h => rooms.filter (fun r => r.hotel_id == h)).map Room.id

/-- `rooms_ids_for_booking` (src/repositories/utils.py): room ids whose
`rooms_left > 0` and which lie in the (optionally hotel-filtered) scope
subquery. -/
def rooms_ids_for_booking (date_from date_to : Int) (hotel_id : Option Nat)
    (db : DB) : List Nat :=
  let scope := roomsIdsForHotel hotel_id db.rooms
  ((db.rooms.filter
      (fun room => decide (roomsLeft date_from date_to db.bookings room > 0))).map
    Room.id).filter (fun r => scope.contains r)

/-- Direct per-room count of bookings passing the overlap filter; the
group-by CTE plus left-join lookup is proved below to compute this. -/
def overlapCount (date_from date_to : Int) (bookings : List Booking)
    (r : Nat) : Nat :=
  (bookings.filter
    (fun b => b.room_id == r && bookingOverlapsQuery date_from date_to b)).length

/-- Looking up a key in a list of `(key, g key)` pairs finds `g` at that key
when the key occurs in the underlying list. -/
theorem find?_map_pair_of_mem {g : Nat → Nat} :
    ∀ (l : List Nat) (r : Nat), r ∈ l →
      (l.map (fun x => (x, g x))).find? (fun p => p.1 == r) = some (r, g r)
  | [], r, hr => absurd hr (List.not_mem_nil r)
  | x :: xs, r, hr => by
    by_cases hx : x = r
    · subst hx
      simp [List.find?]
    · simp only [List.map_cons, List.find?]
      have hb : (x == r) = false := by simp [hx]
      simp only [hb]
      exact find?_map_pair_of_mem xs r (by
        rcases List.mem_cons.mp hr with h | h
        · exact absurd h.symm hx
        · exact h)

theorem roomsBookedLookup_roomsCount (date_from date_to : Int)
    (bookings : List Booking) (r : Nat) :
    roomsBookedLookup (roomsCount date_from date_to bookings) r =
      overlapCount date_from date_to bookings r := by
  unfold roomsBookedLookup roomsCount overlapCount
  simp only []
  set filtered := overlappingBookings date_from date_to bookings with hf
  by_cases hr : r ∈ (filtered.map Booking.room_id).dedup
  · -- the group-by produces a row for r whose count is the filtered count
    rw [find?_map_pair_of_mem _ r hr]
    have : filtered.filter (fun b => b.room_id == r) =
        bookings.filter (fun b => b.room_id == r && bookingOverlapsQuery date_from date_to b) := by
      rw [hf]
      unfold overlappingBookings
      rw [List.filter_filter]
    rw [this]
  · -- no group row: the left join misses, coalesce gives 0, and the
    -- direct count is 0 because no filtered booking has room_id = r
    have hfind :
        ((filtered.map Booking.room_id).dedup.map
            (fun r => (r, (filtered.filter (fun b => b.room_id == r)).length))).find?
          (fun p => p.1 == r) = none := by
      rw [List.find?_eq_none]
      intro p hp
      rcases List.mem_map.mp hp with ⟨x, hx, rfl⟩
      simp only [beq_iff_eq]
      intro h
      exact hr (h ▸ hx)
    rw [hfind]
    have hnone : bookings.filter
        (fun b => b.room_id == r && bookingOverlapsQuery date_from date_to b) = [] := by
      rw [List.filter_eq_nil_iff]
      intro b hb
      simp only [Bool.and_eq_true, beq_iff_eq]
      rintro ⟨hbr, hov⟩
      apply hr
      rw [List.mem_dedup]
      exact List.mem_map.mpr ⟨b, by
        rw [hf]; exact List.mem_filter.mpr ⟨hb, hov⟩, hbr⟩
    rw [hnone]
    rfl

/-- Exceptions raised on the booking path (src/exceptions.py and
FastAPI's HTTPException).  A raised `HTTPException(status_code, detail)`
is `httpException`; the domain exceptions keep their source names. -/
inductive AppError where
  | httpException (status_code : Nat) (detail : String)
  | objectNotFound
  | roomNotFound
  | allRoomsAreBooked
  | multipleResultsFound
  deriving Repr, DecidableEq

/-- The payload of schema `BookingAdd` (user, room, dates, snapshotted price);
the booking primary key is assigned by the database on insert. -/
structure BookingAdd where
  user_id : Nat
  room_id : Nat
  date_from : Int
  date_to : Int
  price : Int
  deriving Repr, DecidableEq

/-- The request body schema `BookingAddRequest`. -/
structure BookingAddRequest where
  room_id : Nat
  date_from : Int
  date_to : Int
  deriving Repr, DecidableEq

/-- The INSERT ... RETURNING executed by
`BookingsRepository.add_booking` on the success path. -/
def insertBooking (data : BookingAdd) (db : DB) : DB × Booking :=
  let b : Booking :=
    { id := db.next_booking_id, user_id := data.user_id, room_id := data.room_id,
      date_from := data.date_from, date_to := data.date_to, price := data.price }
  ({ db with bookings := db.bookings ++ [b],
             next_booking_id := db.next_booking_id + 1 }, b)

/-- `BookingsRepository.add_booking` (src/repositories/bookings.py lines
27-51): compute the available room ids via `rooms_ids_for_booking` scoped to
the hotel, re-select them from the rooms table, and either raise
`HTTPException(404, ...)` when the requested room is not among them or insert
the booking row.  The returned state is unchanged on the failure path. -/
def add_booking (data : BookingAdd) (hotel_id room_id : Nat)
    (date_from date_to : Int) (db : DB) : DB × Except AppError Booking :=
  let rooms_ids_to_get := rooms_ids_for_booking date_from date_to (some hotel_id) db
  let rooms_ids_db :=
    (db.rooms.map Room.id).filter (fun i => rooms_ids_to_get.contains i)
  if room_id ∈ rooms_ids_db then
    let res := insertBooking data db
    (res.1, Except.ok res.2)
  else
    (db, Except.error
      (AppError.httpException 404 "Нельзя забронировать комнату на выбранные даты!"))

/-- `BaseRepository.get_one` specialised to the rooms table:
`scalar_one` raises `NoResultFound` (translated to
`ObjectNotFoundException`) on zero rows and `MultipleResultsFound` on more
than one row. -/
def rooms_get_one (db : DB) (room_id : Nat) : Except AppError Room :=
  match db.rooms.filter (fun r => r.id == room_id) with
  | [] => Except.error AppError.objectNotFound
  | [r] => Except.ok r
  | _ :: _ :: _ => Except.error AppError.multipleResultsFound

/-- `RoomService.get_room_with_check`: translates
`ObjectNotFoundException` into `RoomNotFoundException`. -/
def get_room_with_check (db : DB) (room_id : Nat) : Except AppError Room :=
  match rooms_get_one db room_id with
  | Except.ok r => Except.ok r
  | Except.error AppError.objectNotFound => Except.error AppError.roomNotFound
  | Except.error e => Except.error e

/-- `BookingService.create_booking` (src/services/bookings.py): look the room
up (missing room fails with `RoomNotFoundException`), snapshot its price into
the `BookingAdd` payload and run the admission engine. -/
def svc_create_booking (user_id : Nat) (req : BookingAddRequest) (db : DB) :
    DB × Except AppError Booking :=
  match get_room_with_check db req.room_id with
  | Except.error e => (db, Except.error e)
  | Except.ok room =>
    let data : BookingAdd :=
      { user_id := user_id, room_id := req.room_id,
        date_from := req.date_from, date_to := req.date_to, price := room.price }
    add_booking data room.hotel_id req.room_id req.date_from req.date_to db

/-- `create_booking` route handler (src/api/bookings.py lines 26-68): the
room lookup's `except RoomNotFoundException` maps that exception to
`HTTPException(404, "Номер не найден")` (note `get_one` actually raises the
base `ObjectNotFoundException`, which this handler does not catch); the
admission call's `except AllRoomsAreBookedException` maps that exception to a
409 with its detail; every other exception — in particular the
`HTTPException(404, ...)` raised inside `add_booking` — propagates as is. -/
def api_create_booking (user_id : Nat) (req : BookingAddRequest) (db : DB) :
    DB × Except AppError Booking :=
  match rooms_get_one db req.room_id with
  | Except.error e =>
    (db, Except.error
      (if e = AppError.roomNotFound then
        AppError.httpException 404 "Номер не найден"
       else e))
  | Except.ok room =>
    let data : BookingAdd :=
      { user_id := user_id, room_id := req.room_id,
        date_from := req.date_from, date_to := req.date_to, price := room.price }
    let res := add_booking data room.hotel_id req.room_id req.date_from req.date_to db
    match res.2 with
    | Except.ok b => (res.1, Except.ok b)
    | Except.error AppError.allRoomsAreBooked =>
      (res.1, Except.error (AppError.httpException 409 "Не осталось свободных номеров"))
    | Except.error e => (res.1, Except.error e)

/-- A booking occupies one unit of its room on day d exactly when
d lies in the half-open interval from date_from (inclusive) to
date_to (exclusive). -/
def coversDay (b : Booking) (d : Int) : Bool :=
  decide (b.date_from ≤ d) && decide (d < b.date_to)

/-- Number of bookings of room r that cover calendar day d. -/
def coverCount (bookings : List Booking) (r : Nat) (d : Int) : Nat :=
  (bookings.filter (fun b => b.room_id == r && coversDay b d)).length

/-- The capacity invariant of the spec: no room is ever covered by more
bookings than its quantity on any calendar day. -/
def capacityOk (db : DB) : Prop :=
  ∀ room ∈ db.rooms, ∀ d : Int,
    (coverCount db.bookings room.id d : Int) ≤ room.quantity

/-- The scope predicate of the hotel filter: no restriction when no
hotel id is given, otherwise the room must belong to the hotel. -/
def inHotelScope (hotel_id : Option Nat) (room : Room) : Prop :=
  match hotel_id with
  | none => True
  | some h => room.hotel_id = h

instance (hotel_id : Option Nat) (room : Room) :
    Decidable (inHotelScope hotel_id room) := by
  unfold inHotelScope
  cases hotel_id <;> infer_instance

theorem roomsLeft_eq (date_from date_to : Int) (bookings : List Booking)
    (room : Room) :
    roomsLeft date_from date_to bookings room =
      room.quantity - (overlapCount date_from date_to bookings room.id : Int) := by
  unfold roomsLeft
  rw [roomsBookedLookup_roomsCount]

theorem mem_roomsIdsForHotel (hotel_id : Option Nat) (rooms : List Room)
    (r : Nat) :
    r ∈ roomsIdsForHotel hotel_id rooms ↔
      ∃ room ∈ rooms, room.id = r ∧ inHotelScope hotel_id room := by
  unfold roomsIdsForHotel inHotelScope
  cases hotel_id with
  | none => simp [List.mem_map, eq_comm]
  | some h =>
    simp only [List.mem_map, List.mem_filter, beq_iff_eq]
    constructor
    · rintro ⟨room, ⟨hm, hh⟩, rfl⟩
      exact ⟨room, hm, rfl, hh⟩
    · rintro ⟨room, hm, rfl, hh⟩
      exact ⟨room, ⟨hm, hh⟩, rfl⟩

theorem mem_rooms_ids_iff (date_from date_to : Int) (hotel_id : Option Nat)
    (db : DB) (r : Nat) :
    r ∈ rooms_ids_for_booking date_from date_to hotel_id db ↔
      (∃ room ∈ db.rooms, room.id = r ∧
        roomsLeft date_from date_to db.bookings room > 0) ∧
      (∃ room ∈ db.rooms, room.id = r ∧ inHotelScope hotel_id room) := by
  unfold rooms_ids_for_booking
  rw [List.mem_filter]
  constructor
  · rintro ⟨hmem, hscope⟩
    refine ⟨?_, ?_⟩
    · rcases List.mem_map.mp hmem with ⟨room, hroom, rfl⟩
      rcases List.mem_filter.mp hroom with ⟨hm, hleft⟩
      exact ⟨room, hm, rfl, of_decide_eq_true hleft⟩
    · exact (mem_roomsIdsForHotel hotel_id db.rooms r).mp
        (List.mem_of_elem_eq_true hscope)
  · rintro ⟨⟨room, hm, rfl, hleft⟩, hscope⟩
    refine ⟨List.mem_map.mpr ⟨room, List.mem_filter.mpr ⟨hm, decide_eq_true hleft⟩, rfl⟩, ?_⟩
    exact List.elem_eq_true_of_mem
      ((mem_roomsIdsForHotel hotel_id db.rooms room.id).mpr hscope)

/-- Two room rows of a table whose id column is duplicate-free are equal
when their ids coincide (the primary-key property). -/
theorem room_eq_of_id_eq {rooms : List Room}
    (hnd : (rooms.map Room.id).Nodup) {r1 r2 : Room}
    (h1 : r1 ∈ rooms) (h2 : r2 ∈ rooms) (heq : r1.id = r2.id) : r1 = r2 :=
  List.inj_on_of_nodup_map hnd h1 h2 heq

/-- Inversion of a successful admission: the requested room id passed the
availability check and the result state is the insert of the payload. -/
theorem add_booking_ok_inversion {data : BookingAdd} {hotel_id room_id : Nat}
    {date_from date_to : Int} {db db' : DB} {bk : Booking}
    (h : add_booking data hotel_id room_id date_from date_to db =
      (db', Except.ok bk)) :
    room_id ∈ rooms_ids_for_booking date_from date_to (some hotel_id) db ∧
      db' = (insertBooking data db).1 ∧ bk = (insertBooking data db).2 := by
  unfold add_booking at h
  by_cases hmem : room_id ∈
      (db.rooms.map Room.id).filter
        (fun i => (rooms_ids_for_booking date_from date_to (some hotel_id) db).contains i)
  · rw [if_pos hmem] at h
    refine ⟨?_, ?_, ?_⟩
    · have := (List.mem_filter.mp hmem).2
      exact List.mem_of_elem_eq_true this
    · exact (congrArg Prod.fst h).symm ▸ rfl
    · have := congrArg Prod.snd h
      simp only [] at this
      exact (Except.ok.injEq _ _ ▸ this.symm) ▸ rfl
  · rw [if_neg hmem] at h
    have := congrArg Prod.snd h
    simp at this

theorem coverCount_le_overlapCount (date_from date_to : Int)
    (bookings : List Booking) (r : Nat) (d : Int)
    (h1 : date_from ≤ d) (h2 : d < date_to) :
    coverCount bookings r d ≤ overlapCount date_from date_to bookings r := by
  unfold coverCount overlapCount
  apply List.Sublist.length_le
  apply List.monotone_filter_right
  intro b hb
  simp only [Bool.and_eq_true, beq_iff_eq] at hb ⊢
  refine ⟨hb.1, ?_⟩
  unfold coversDay at hb
  unfold bookingOverlapsQuery
  rcases hb.2 with hb2
  simp only [Bool.and_eq_true, decide_eq_true_eq] at hb2 ⊢
  omega

theorem coverCount_append_single (bookings : List Booking) (b : Booking)
    (r : Nat) (d : Int) :
    coverCount (bookings ++ [b]) r d =
      coverCount bookings r d +
        (if b.room_id == r && coversDay b d then 1 else 0) := by
  unfold coverCount
  rw [List.filter_append, List.length_append]
  congr 1
  by_cases hb : (b.room_id == r && coversDay b d) = true
  · rw [if_pos hb]
    simp [List.filter, hb]
  · rw [if_neg hb]
    simp only [Bool.not_eq_true] at hb
    simp [List.filter, hb]

theorem coverCount_sublist {bs1 bs2 : List Booking}
    (h : bs1.Sublist bs2) (r : Nat) (d : Int) :
    coverCount bs1 r d ≤ coverCount bs2 r d :=
  List.Sublist.length_le (List.Sublist.filter _ h)

/-- The state transitions the spec quantifies over: a booking admitted by
`add_booking` with the payload fields the callers pass (room, dates and
payload agree), or an arbitrary deletion of booking rows. -/
inductive Step : DB → DB → Prop where
  | book (user_id hotel_id room_id : Nat) (date_from date_to price : Int)
      (db db' : DB) (bk : Booking) :
      add_booking
        { user_id := user_id, room_id := room_id, date_from := date_from,
          date_to := date_to, price := price }
        hotel_id room_id date_from date_to db = (db', Except.ok bk) →
      Step db db'
  | del (db db' : DB) :
      db'.bookings.Sublist db.bookings →
      db'.rooms = db.rooms →
      Step db db'

/-- One step — an admitted booking or a deletion — keeps the rooms table
unchanged and preserves the capacity invariant (given the primary-key
property of the rooms table). -/
theorem step_preserves {db db' : DB} (hstep : Step db db')
    (hnd : (db.rooms.map Room.id).Nodup) (hcap : capacityOk db) :
    db'.rooms = db.rooms ∧ capacityOk db' := by
  cases hstep with
  | del _ _ hsub hrooms =>
    refine ⟨hrooms, ?_⟩
    intro room hroom d
    rw [hrooms] at hroom
    calc (coverCount db'.bookings room.id d : Int)
        ≤ (coverCount db.bookings room.id d : Int) :=
          Nat.cast_le.mpr (coverCount_sublist hsub _ _)
      _ ≤ room.quantity := hcap room hroom d
  | book uid hid rid df dt price _ _ bk heq =>
    obtain ⟨hmem, hdb', -⟩ := add_booking_ok_inversion heq
    subst hdb'
    refine ⟨rfl, ?_⟩
    intro room hroom d
    have hroom' : room ∈ db.rooms := hroom
    show (coverCount
        (db.bookings ++ [Booking.mk db.next_booking_id uid rid df dt price])
        room.id d : Int) ≤ room.quantity
    rw [coverCount_append_single]
    by_cases hcov :
        ((Booking.mk db.next_booking_id uid rid df dt price).room_id == room.id &&
          coversDay (Booking.mk db.next_booking_id uid rid df dt price) d) = true
    · rw [if_pos hcov]
      simp only [Bool.and_eq_true, beq_iff_eq, coversDay,
        decide_eq_true_eq] at hcov
      obtain ⟨hrid, hd1, hd2⟩ := hcov
      obtain ⟨⟨room0, hroom0, hid0, hleft⟩, -⟩ :=
        (mem_rooms_ids_iff df dt (some hid) db rid).mp hmem
      have hre : room0 = room :=
        room_eq_of_id_eq hnd hroom0 hroom' (by rw [hid0, ← hrid])
      subst hre
      rw [roomsLeft_eq] at hleft
      have hco : coverCount db.bookings room0.id d ≤
          overlapCount df dt db.bookings room0.id :=
        coverCount_le_overlapCount df dt db.bookings room0.id d hd1 hd2
      push_cast
      omega
    · rw [if_neg hcov]
      simpa using hcap room hroom' d

/-- C1.  Capacity invariant: starting from a state satisfying the capacity
invariant (and whose rooms table has duplicate-free ids — the primary-key
property), after any sequence of bookings admitted by
add_booking and arbitrary booking deletions, the number of
bookings on any room covering any calendar day never exceeds the room's
quantity. -/
theorem booking_capacity_invariant (db db' : DB)
    (hnd : (db.rooms.map Room.id).Nodup)
    (hcap : capacityOk db)
    (hsteps : Relation.ReflTransGen Step db db') :
    capacityOk db' := by
  have main : db'.rooms = db.rooms ∧ capacityOk db' := by
    induction hsteps with
    | refl => exact ⟨rfl, hcap⟩
    | tail hab hbc ih =>
      obtain ⟨hrooms, hcapb⟩ := ih
      have hndb := hrooms ▸ hnd
      obtain ⟨hrooms', hcap'⟩ := step_preserves hbc hndb hcapb
      exact ⟨hrooms'.trans hrooms, hcap'⟩
  exact main.2

/-- Initial state for the capacity-invariant witness: one room of
quantity 1, no bookings. -/
def dbW0 : DB :=
  { rooms := [{ id := 1, hotel_id := 1, price := 100, quantity := 1 }],
    hotels := [], bookings := [], room_facilities := [], next_booking_id := 0 }

/-- State after one admitted booking of room 1 over days 5..7. -/
def dbW1 : DB :=
  { rooms := [{ id := 1, hotel_id := 1, price := 100, quantity := 1 }],
    hotels := [],
    bookings := [{ id := 0, user_id := 7, room_id := 1, date_from := 5,
                   date_to := 7, price := 100 }],
    room_facilities := [], next_booking_id := 1 }

/-- Witness for C1: the invariant theorem applied to a concrete admitted
booking starting from a concrete invariant-satisfying state. -/
theorem booking_capacity_invariant_witness : capacityOk dbW1 := by
  apply booking_capacity_invariant dbW0 dbW1
  · decide
  · intro room hroom d
    have hr : room = { id := 1, hotel_id := 1, price := 100, quantity := 1 } := by
      simpa [dbW0] using hroom
    subst hr
    simp [coverCount, dbW0]
  · exact Relation.ReflTransGen.single
      (Step.book 7 1 1 5 7 100 dbW0 dbW1
        { id := 0, user_id := 7, room_id := 1, date_from := 5, date_to := 7,
          price := 100 } rfl)

/-- Concrete state for the overlap boundary scenario of the spec: one room
of quantity 1 holding one booking over days [1, 10) (day n standing for
calendar day Aug n). -/
def dbC2 : DB :=
  { rooms := [{ id := 1, hotel_id := 1, price := 100, quantity := 1 }],
    hotels := [{ id := 1, title := "Hotel", location := "City" }],
    bookings := [{ id := 1, user_id := 1, room_id := 1, date_from := 1,
                   date_to := 10, price := 100 }],
    room_facilities := [], next_booking_id := 2 }

/-- C2 counterexample: the source's overlap filter compares non-strictly, so
the existing booking [1, 10) counts as overlapping the query [10, 20) and a
request for [10, 20) on the quantity-1 room is REJECTED — refuting the claim
that the comparisons are strict and that a touching request is accepted. -/
theorem overlap_touching_boundary_counterexample :
    bookingOverlapsQuery 10 20
      { id := 1, user_id := 1, room_id := 1, date_from := 1, date_to := 10,
        price := 100 } = true ∧
    (add_booking
        { user_id := 2, room_id := 1, date_from := 10, date_to := 20, price := 100 }
        1 1 10 20 dbC2).2 =
      Except.error
        (AppError.httpException 404 "Нельзя забронировать комнату на выбранные даты!") :=
  ⟨rfl, rfl⟩

/-- C2 (amended): the Overlap Calculator counts an existing booking as
overlapping the query range if and only if
booking.date_from ≤ query.date_to AND booking.date_to ≥ query.date_from
(non-strict comparisons); consequently, for a room with quantity 1 holding
one existing booking over [1, 10), a request for [10, 20) is rejected
(a touching boundary IS an overlap) and a request for [5, 15) is rejected
as well. -/
theorem overlap_calculator_non_strict :
    (∀ (date_from date_to : Int) (b : Booking),
        bookingOverlapsQuery date_from date_to b = true ↔
          b.date_from ≤ date_to ∧ b.date_to ≥ date_from) ∧
    (add_booking
        { user_id := 2, room_id := 1, date_from := 10, date_to := 20, price := 100 }
        1 1 10 20 dbC2).2 =
      Except.error
        (AppError.httpException 404 "Нельзя забронировать комнату на выбранные даты!") ∧
    (add_booking
        { user_id := 2, room_id := 1, date_from := 5, date_to := 15, price := 100 }
        1 1 5 15 dbC2).2 =
      Except.error
        (AppError.httpException 404 "Нельзя забронировать комнату на выбранные даты!") := by
  refine ⟨?_, rfl, rfl⟩
  intro date_from date_to b
  unfold bookingOverlapsQuery
  simp

/-- C3.  checkAvailability returns exactly the room ids of the candidate
scope whose quantity minus the number of bookings counted as overlapping the
range (a room with no overlapping bookings counting 0) is strictly positive,
given the primary-key property of the rooms table. -/
theorem rooms_ids_for_booking_correct (date_from date_to : Int)
    (hotel_id : Option Nat) (db : DB) (r : Nat)
    (hnd : (db.rooms.map Room.id).Nodup) :
    r ∈ rooms_ids_for_booking date_from date_to hotel_id db ↔
      ∃ room ∈ db.rooms, room.id = r ∧ inHotelScope hotel_id room ∧
        (overlapCount date_from date_to db.bookings r : Int) < room.quantity := by
  rw [mem_rooms_ids_iff]
  constructor
  · rintro ⟨⟨room, hm, rfl, hleft⟩, ⟨room2, hm2, hid2, hscope⟩⟩
    have h2 : room2 = room := room_eq_of_id_eq hnd hm2 hm hid2
    subst h2
    rw [roomsLeft_eq] at hleft
    exact ⟨room2, hm, rfl, hscope, by omega⟩
  · rintro ⟨room, hm, rfl, hscope, hcount⟩
    refine ⟨⟨room, hm, rfl, ?_⟩, ⟨room, hm, rfl, hscope⟩⟩
    rw [roomsLeft_eq]
    omega

/-- Witness for C3: room 1 of the concrete state is reported available for
the non-overlapping range [12, 20). -/
theorem rooms_ids_for_booking_correct_witness :
    1 ∈ rooms_ids_for_booking 12 20 (some 1) dbC2 :=
  (rooms_ids_for_booking_correct 12 20 (some 1) dbC2 1 (by decide)).mpr
    ⟨{ id := 1, hotel_id := 1, price := 100, quantity := 1 }, by decide, rfl,
      rfl, by decide⟩

/-- C4 (the code evaluated at the failing input): a createBooking for an
existing room that fails the availability check surfaces the repository's
HTTPException status 404 (detail: cannot book the room for the chosen
dates) — not an AllRoomsBooked conflict mapped to 409; the route's 409
handler is unreachable on this path. -/
theorem no_capacity_surfaces_404 :
    (api_create_booking 2 { room_id := 1, date_from := 5, date_to := 15 } dbC2).2 =
      Except.error
        (AppError.httpException 404 "Нельзя забронировать комнату на выбранные даты!") :=
  rfl

/-- C5.  Atomicity of admission: every failing createBooking (room not
found, or room found but no capacity) leaves the stored state exactly as it
was, and in particular every subsequent availability check returns the same
result as before the failed attempt. -/
theorem failed_booking_atomic (user_id : Nat) (req : BookingAddRequest)
    (db : DB) (e : AppError)
    (hfail : (svc_create_booking user_id req db).2 = Except.error e) :
    (svc_create_booking user_id req db).1 = db ∧
      ∀ (date_from date_to : Int) (hotel_id : Option Nat),
        rooms_ids_for_booking date_from date_to hotel_id
            (svc_create_booking user_id req db).1 =
          rooms_ids_for_booking date_from date_to hotel_id db := by
  have hdb : (svc_create_booking user_id req db).1 = db := by
    unfold svc_create_booking at hfail ⊢
    cases hrm : get_room_with_check db req.room_id with
    | error e2 => rfl
    | ok room =>
      rw [hrm] at hfail
      have hfail' :
          (add_booking
            { user_id := user_id, room_id := req.room_id,
              date_from := req.date_from, date_to := req.date_to,
              price := room.price }
            room.hotel_id req.room_id req.date_from req.date_to db).2 =
          Except.error e := hfail
      show (add_booking
        { user_id := user_id, room_id := req.room_id,
          date_from := req.date_from, date_to := req.date_to,
          price := room.price }
        room.hotel_id req.room_id req.date_from req.date_to db).1 = db
      unfold add_booking at hfail' ⊢
      by_cases hmem : req.room_id ∈
          (db.rooms.map Room.id).filter
            (fun i => (rooms_ids_for_booking req.date_from req.date_to
              (some room.hotel_id) db).contains i)
      · rw [if_pos hmem] at hfail'
        simp at hfail'
      · rw [if_neg hmem]
  exact ⟨hdb, fun date_from date_to hotel_id => by rw [hdb]⟩

/-- The empty store. -/
def dbEmpty : DB :=
  { rooms := [], hotels := [], bookings := [], room_facilities := [],
    next_booking_id := 0 }

/-- Witness for C5: booking a nonexistent room fails and leaves the empty
store unchanged. -/
theorem failed_booking_atomic_witness :
    (svc_create_booking 1 { room_id := 1, date_from := 5, date_to := 7 }
      dbEmpty).1 = dbEmpty :=
  (failed_booking_atomic 1 { room_id := 1, date_from := 5, date_to := 7 }
    dbEmpty AppError.roomNotFound rfl).1

/-- Python set difference over id collections (set(xs) - set(ys)),
embedded as a duplicate-free list. -/
def setDiff (xs ys : List Nat) : List Nat :=
  xs.dedup.filter (fun x => !ys.contains x)

/-- The SELECT of current facility ids of a room in
edit_room_with_facilities (facility_id of the association rows whose
room_id matches). -/
def currentFacilityIds (assoc : List RoomFacility) (room_id : Nat) :
    List Nat :=
  (assoc.filter (fun a => a.room_id == room_id)).map RoomFacility.facility_id

/-- ids_to_delete of edit_room_with_facilities: empty when the target is
None, otherwise current minus target. -/
def idsToDelete (facilities_ids : Option (List Nat)) (room_id : Nat)
    (assoc : List RoomFacility) : List Nat :=
  match facilities_ids with
  | none => []
  | some new_ids => setDiff (currentFacilityIds assoc room_id) new_ids

/-- ids_to_insert of edit_room_with_facilities: empty when the target is
None, otherwise target minus current. -/
def idsToInsert (facilities_ids : Option (List Nat)) (room_id : Nat)
    (assoc : List RoomFacility) : List Nat :=
  match facilities_ids with
  | none => []
  | some new_ids => setDiff new_ids (currentFacilityIds assoc room_id)

/-- Outcome of one edit_room_with_facilities call: the resulting
association table and how many SELECT, DELETE and INSERT statements were
executed. -/
structure EditResult where
  assoc : List RoomFacility
  reads : Nat
  deletes : Nat
  inserts : Nat
  deriving Repr, DecidableEq

/-- RoomFacilitiesRepository.edit_room_with_facilities
(src/repositories/facilities.py lines 18-54): read the current facility ids
of the room; with a None target both diff sets are empty; issue one bulk
DELETE of the room's rows with facility_id in ids_to_delete when that set is
non-empty, and one bulk INSERT of (room_id, facility_id) rows for
ids_to_insert when that set is non-empty. -/
def edit_room_with_facilities (facilities_ids : Option (List Nat))
    (room_id : Nat) (assoc : List RoomFacility) : EditResult :=
  let ids_to_delete := idsToDelete facilities_ids room_id assoc
  let ids_to_insert := idsToInsert facilities_ids room_id assoc
  let del := !ids_to_delete.isEmpty
  let assoc1 :=
    if del then
      assoc.filter
        (fun a => !(a.room_id == room_id && ids_to_delete.contains a.facility_id))
    else assoc
  let ins := !ids_to_insert.isEmpty
  let assoc2 :=
    if ins then
      assoc1 ++ ids_to_insert.map (fun fid => RoomFacility.mk room_id fid)
    else assoc1
  { assoc := assoc2, reads := 1,
    deletes := if del then 1 else 0, inserts := if ins then 1 else 0 }

theorem mem_setDiff (xs ys : List Nat) (x : Nat) :
    x ∈ setDiff xs ys ↔ x ∈ xs ∧ x ∉ ys := by
  simp [setDiff, List.mem_filter, List.mem_dedup]

theorem mem_currentFacilityIds {assoc : List RoomFacility} {room_id f : Nat} :
    f ∈ currentFacilityIds assoc room_id ↔
      ∃ a ∈ assoc, a.room_id = room_id ∧ a.facility_id = f := by
  unfold currentFacilityIds
  simp only [List.mem_map, List.mem_filter, beq_iff_eq]
  constructor
  · rintro ⟨a, ⟨ha, hr⟩, rfl⟩
    exact ⟨a, ha, hr, rfl⟩
  · rintro ⟨a, ha, hr, rfl⟩
    exact ⟨a, ⟨ha, hr⟩, rfl⟩

/-- The association table produced by a reconciliation with a present
target, with the two statement-issuing conditionals resolved away. -/
theorem assoc_after_reconcile (room_id : Nat) (new_ids : List Nat)
    (assoc : List RoomFacility) :
    (edit_room_with_facilities (some new_ids) room_id assoc).assoc =
      assoc.filter
        (fun a => !(a.room_id == room_id &&
          (idsToDelete (some new_ids) room_id assoc).contains a.facility_id)) ++
      (idsToInsert (some new_ids) room_id assoc).map
        (fun fid => RoomFacility.mk room_id fid) := by
  unfold edit_room_with_facilities
  by_cases hdel : (idsToDelete (some new_ids) room_id assoc).isEmpty = true
  · have hnil : idsToDelete (some new_ids) room_id assoc = [] :=
      List.isEmpty_iff.mp hdel
    by_cases hins : (idsToInsert (some new_ids) room_id assoc).isEmpty = true
    · have hnil2 : idsToInsert (some new_ids) room_id assoc = [] :=
        List.isEmpty_iff.mp hins
      simp [hnil, hnil2, List.filter_eq_self]
    · simp [hnil, hins]
  · by_cases hins : (idsToInsert (some new_ids) room_id assoc).isEmpty = true
    · have hnil2 : idsToInsert (some new_ids) room_id assoc = [] :=
        List.isEmpty_iff.mp hins
      simp [hdel, hnil2]
    · simp [hdel, hins]

/-- After a reconciliation with target new_ids, a facility id is
associated with the room exactly when it occurs in the target. -/
theorem mem_after_reconcile (room_id : Nat) (new_ids : List Nat)
    (assoc : List RoomFacility) (f : Nat) :
    f ∈ currentFacilityIds
        (edit_room_with_facilities (some new_ids) room_id assoc).assoc
        room_id ↔ f ∈ new_ids := by
  rw [assoc_after_reconcile]
  unfold currentFacilityIds
  rw [List.filter_append, List.map_append]
  rw [List.mem_append]
  constructor
  · rintro (hold | hnew)
    · rw [List.filter_filter] at hold
      rcases List.mem_map.mp hold with ⟨a, ha, rfl⟩
      rcases List.mem_filter.mp ha with ⟨ham, hcond⟩
      simp only [Bool.and_eq_true, beq_iff_eq, Bool.not_eq_eq_eq_not,
        Bool.not_true, Bool.and_eq_false_iff] at hcond
      obtain ⟨hr, hcond⟩ := hcond
      have hcur : a.facility_id ∈ currentFacilityIds assoc room_id :=
        mem_currentFacilityIds.mpr ⟨a, ham, hr, rfl⟩
      by_contra hnot
      have : a.facility_id ∈ idsToDelete (some new_ids) room_id assoc := by
        unfold idsToDelete
        exact (mem_setDiff _ _ _).mpr ⟨hcur, hnot⟩
      rcases hcond with h | h
      · simp [hr] at h
      · exact absurd this (by simpa using h)
    · rcases List.mem_map.mp hnew with ⟨a, ha, rfl⟩
      rcases List.mem_filter.mp ha with ⟨ham, -⟩
      rcases List.mem_map.mp ham with ⟨fid, hfid, rfl⟩
      have := (mem_setDiff new_ids (currentFacilityIds assoc room_id) fid).mp hfid
      exact this.1
  · intro hf
    by_cases hcur : f ∈ currentFacilityIds assoc room_id
    · left
      rcases mem_currentFacilityIds.mp hcur with ⟨a, ha, hr, rfl⟩
      rw [List.filter_filter]
      refine List.mem_map.mpr ⟨a, List.mem_filter.mpr ⟨ha, ?_⟩, rfl⟩
      simp only [Bool.and_eq_true, beq_iff_eq, Bool.not_eq_eq_eq_not,
        Bool.not_true, Bool.and_eq_false_iff]
      refine ⟨hr, Or.inr ?_⟩
      have hnotdel : a.facility_id ∉ idsToDelete (some new_ids) room_id assoc := by
        intro hmem
        unfold idsToDelete at hmem
        exact ((mem_setDiff _ _ _).mp hmem).2 hf
      simpa using hnotdel
    · right
      have hin : f ∈ idsToInsert (some new_ids) room_id assoc := by
        unfold idsToInsert
        exact (mem_setDiff _ _ _).mpr ⟨hf, hcur⟩
      refine List.mem_map.mpr ⟨RoomFacility.mk room_id f, ?_, rfl⟩
      refine List.mem_filter.mpr ⟨List.mem_map.mpr ⟨f, hin, rfl⟩, by simp⟩

/-- A second reconciliation with the same present target issues no delete
and no insert statement and leaves the association table unchanged. -/
theorem reconcile_second_noop (room_id : Nat) (new_ids : List Nat)
    (assoc : List RoomFacility) :
    edit_room_with_facilities (some new_ids) room_id
        (edit_room_with_facilities (some new_ids) room_id assoc).assoc =
      { assoc := (edit_room_with_facilities (some new_ids) room_id assoc).assoc,
        reads := 1, deletes := 0, inserts := 0 } := by
  set A := (edit_room_with_facilities (some new_ids) room_id assoc).assoc with hA
  have hdel : idsToDelete (some new_ids) room_id A = [] := by
    unfold idsToDelete setDiff
    rw [List.filter_eq_nil_iff]
    intro x hx
    rw [List.mem_dedup] at hx
    have hmem : x ∈ new_ids := (mem_after_reconcile room_id new_ids assoc x).mp (hA ▸ hx)
    simp [hmem]
  have hins : idsToInsert (some new_ids) room_id A = [] := by
    unfold idsToInsert setDiff
    rw [List.filter_eq_nil_iff]
    intro x hx
    rw [List.mem_dedup] at hx
    have hmem : x ∈ currentFacilityIds A room_id :=
      hA ▸ (mem_after_reconcile room_id new_ids assoc x).mpr hx
    simp [hmem]
  unfold edit_room_with_facilities
  rw [hdel, hins]
  simp

/-- C6.  Facility reconciliation with a present target computes the two set
differences, issues a delete statement exactly when ids_to_delete is
non-empty and an insert statement exactly when ids_to_insert is non-empty,
leaves the room associated with exactly the target set, and is idempotent:
a second identical reconciliation issues zero delete and zero insert
statements and leaves the associations unchanged. -/
theorem facility_reconciliation_correct (room_id : Nat) (new_ids : List Nat)
    (assoc : List RoomFacility) :
    ((edit_room_with_facilities (some new_ids) room_id assoc).deletes =
      if idsToDelete (some new_ids) room_id assoc = [] then 0 else 1) ∧
    ((edit_room_with_facilities (some new_ids) room_id assoc).inserts =
      if idsToInsert (some new_ids) room_id assoc = [] then 0 else 1) ∧
    (currentFacilityIds
        (edit_room_with_facilities (some new_ids) room_id assoc).assoc
        room_id).toFinset = new_ids.toFinset ∧
    edit_room_with_facilities (some new_ids) room_id
        (edit_room_with_facilities (some new_ids) room_id assoc).assoc =
      { assoc := (edit_room_with_facilities (some new_ids) room_id assoc).assoc,
        reads := 1, deletes := 0, inserts := 0 } := by
  refine ⟨?_, ?_, ?_, reconcile_second_noop room_id new_ids assoc⟩
  · by_cases h : idsToDelete (some new_ids) room_id assoc = []
    · simp [edit_room_with_facilities, h]
    · simp [edit_room_with_facilities, h, List.isEmpty_iff]
  · by_cases h : idsToInsert (some new_ids) room_id assoc = []
    · simp [edit_room_with_facilities, h]
    · simp [edit_room_with_facilities, h, List.isEmpty_iff]
  · ext f
    simp only [List.mem_toFinset]
    exact mem_after_reconcile room_id new_ids assoc f

/-- C7.  A None target is a no-op (no statements, associations untouched),
while an empty-list target removes every association of the room and
inserts none. -/
theorem facility_none_vs_empty_target (room_id : Nat)
    (assoc : List RoomFacility) :
    edit_room_with_facilities none room_id assoc =
      { assoc := assoc, reads := 1, deletes := 0, inserts := 0 } ∧
    (edit_room_with_facilities (some []) room_id assoc).assoc =
      assoc.filter (fun a => !(a.room_id == room_id)) ∧
    currentFacilityIds
      (edit_room_with_facilities (some []) room_id assoc).assoc room_id = [] ∧
    (edit_room_with_facilities (some []) room_id assoc).inserts = 0 := by
  refine ⟨rfl, ?_, ?_, ?_⟩
  · rw [assoc_after_reconcile]
    have hins : idsToInsert (some []) room_id assoc = [] := rfl
    rw [hins]
    simp only [List.map_nil, List.append_nil]
    apply List.filter_congr
    intro a ha
    by_cases hr : a.room_id = room_id
    · have hcur : a.facility_id ∈ currentFacilityIds assoc room_id :=
        mem_currentFacilityIds.mpr ⟨a, ha, hr, rfl⟩
      have hdel : a.facility_id ∈ idsToDelete (some []) room_id assoc := by
        unfold idsToDelete
        exact (mem_setDiff _ _ _).mpr ⟨hcur, by simp⟩
      simp [hr, hdel]
    · simp [hr]
  · refine List.eq_nil_iff_forall_not_mem.mpr (fun f hf => ?_)
    exact absurd ((mem_after_reconcile room_id [] assoc f).mp hf)
      (List.not_mem_nil f)
  · have hins : idsToInsert (some []) room_id assoc = [] := rfl
    simp [edit_room_with_facilities, hins]

/-- A Python value as it occurs at the reconciliation call sites: an int
(the room id the callers pass positionally) or a facilities-ids value
(None or a list of ids). -/
inductive PyVal where
  | int (n : Nat)
  | facilityIds (l : Option (List Nat))
  deriving Repr, DecidableEq

/-- The Python runtime errors relevant to a reconciliation call. -/
inductive PyError where
  | typeErrorMissingArg (param : String)
  | typeErrorMultipleValues (param : String)
  | typeErrorTooManyArgs
  | attributeError
  deriving Repr, DecidableEq

/-- CPython argument binding for the signature
(data, room_id, **filter_by) of edit_room_with_facilities: positionals are
assigned to data then room_id in order, a keyword matching a named
parameter binds it, every other keyword lands in filter_by, and a required
parameter left unbound raises TypeError before the body runs. -/
def bindEditArgs (pos : List PyVal) (kw : List (String × PyVal)) :
    Except PyError (PyVal × PyVal × List (String × PyVal)) :=
  match pos with
  | _ :: _ :: _ :: _ => Except.error PyError.typeErrorTooManyArgs
  | [a, b] =>
    if (kw.lookup "data").isSome then
      Except.error (PyError.typeErrorMultipleValues "data")
    else if (kw.lookup "room_id").isSome then
      Except.error (PyError.typeErrorMultipleValues "room_id")
    else Except.ok (a, b, kw)
  | [a] =>
    if (kw.lookup "data").isSome then
      Except.error (PyError.typeErrorMultipleValues "data")
    else
      match kw.lookup "room_id" with
      | some b => Except.ok (a, b, kw.filter (fun p => !(p.1 == "room_id")))
      | none => Except.error (PyError.typeErrorMissingArg "room_id")
  | [] =>
    match kw.lookup "data" with
    | none => Except.error (PyError.typeErrorMissingArg "data")
    | some a =>
      match kw.lookup "room_id" with
      | some b =>
        Except.ok (a, b,
          kw.filter (fun p => !(p.1 == "data") && !(p.1 == "room_id")))
      | none => Except.error (PyError.typeErrorMissingArg "room_id")

/-- A call of edit_room_with_facilities through Python's calling
convention: a binding failure raises before the body runs, so no
association row is read, deleted or inserted and the table is returned
untouched; on a successful binding the body reads data.facilities_ids
(AttributeError on an int) and runs the reconciliation. -/
def call_edit_room_with_facilities (pos : List PyVal)
    (kw : List (String × PyVal)) (assoc : List RoomFacility) :
    List RoomFacility × Except PyError EditResult :=
  match bindEditArgs pos kw with
  | Except.error e => (assoc, Except.error e)
  | Except.ok (data, room_idVal, _filter_by) =>
    match data with
    | PyVal.int _ => (assoc, Except.error PyError.attributeError)
    | PyVal.facilityIds fids =>
      match room_idVal with
      | PyVal.int rid =>
        let r := edit_room_with_facilities fids rid assoc
        (r.assoc, Except.ok r)
      | PyVal.facilityIds _ => (assoc, Except.error PyError.attributeError)

/-- The exact call shape the PUT and PATCH room-edit paths use
(src/services/rooms.py lines 52-54 and 70-73; src/api/rooms.py put_room
and patch_room): the room id passed positionally — landing in the data
parameter — and the target passed only as the facilities_ids keyword. -/
def reconcileCallFromRoomEdit (room_id : Nat)
    (facilities_ids : Option (List Nat)) (assoc : List RoomFacility) :
    List RoomFacility × Except PyError EditResult :=
  call_edit_room_with_facilities [PyVal.int room_id]
    [("facilities_ids", PyVal.facilityIds facilities_ids)] assoc

/-- C10.  Every room edit (PUT) or partial edit (PATCH) that reaches the
facility-reconciliation step raises TypeError during argument binding —
the room id fills the data parameter and room_id stays unbound — before
any association row is read, deleted or inserted, so these operations
never modify a room's facility associations. -/
theorem room_edit_reconciliation_type_error (room_id : Nat)
    (facilities_ids : Option (List Nat)) (assoc : List RoomFacility) :
    reconcileCallFromRoomEdit room_id facilities_ids assoc =
      (assoc, Except.error (PyError.typeErrorMissingArg "room_id")) := rfl

/-- The rows the query built inside RoomsRepository.get_filtered_by_time
would produce if it were executed: (room_id, rooms_left) for every room
with rooms_left positive — note the built query contains no hotel filter
at all. -/
def roomsLeftQueryRows (date_from date_to : Int) (db : DB) :
    List (Nat × Int) :=
  (db.rooms.map
    (fun room => (room.id, roomsLeft date_from date_to db.bookings room))).filter
    (fun p => decide (p.2 > 0))

/-- RoomsRepository.get_filtered_by_time (src/repositories/rooms.py lines
16-58): the method builds the rooms_count and rooms_left_table CTEs and
the final query object, but contains no session.execute and no return
statement, so the built query is discarded and every call returns Python
None; the hotel_id parameter is never used. -/
def rooms_get_filtered_by_time (hotel_id : Nat) (date_from date_to : Int)
    (db : DB) : Option (List (Nat × Int)) :=
  let _query := roomsLeftQueryRows date_from date_to db
  none

/-- BaseRepository.get_one specialised to the hotels table, as called by
RoomService.get_filtered_by_time for the hotel existence check. -/
def hotels_get_one (db : DB) (hotel_id : Nat) : Except AppError Hotel :=
  match db.hotels.filter (fun h => h.id == hotel_id) with
  | [] => Except.error AppError.objectNotFound
  | [h] => Except.ok h
  | _ :: _ :: _ => Except.error AppError.multipleResultsFound

/-- RoomService.get_filtered_by_time (src/services/rooms.py lines 17-27):
check the hotel exists, then return whatever the repository method
returns. -/
def svc_rooms_get_filtered_by_time (hotel_id : Nat) (date_from date_to : Int)
    (db : DB) : Except AppError (Option (List (Nat × Int))) :=
  match hotels_get_one db hotel_id with
  | Except.error e => Except.error e
  | Except.ok _ =>
    Except.ok (rooms_get_filtered_by_time hotel_id date_from date_to db)

/-- Following the claim's words, for comparison with the source: the rooms
of the given hotel with at least one free unit throughout the range. -/
def specSearchRooms (hotel_id : Nat) (date_from date_to : Int) (db : DB) :
    List Room :=
  db.rooms.filter (fun r => r.hotel_id == hotel_id &&
    decide (roomsLeft date_from date_to db.bookings r > 0))

/-- Concrete failing input for the room search: hotel 1 exists and its
room 1 has two free units over [5, 7). -/
def dbC8 : DB :=
  { rooms := [{ id := 1, hotel_id := 1, price := 100, quantity := 2 }],
    hotels := [{ id := 1, title := "Hotel", location := "City" }],
    bookings := [], room_facilities := [], next_booking_id := 0 }

/-- C8 (the code evaluated at the failing input): searchRooms for an
existing hotel and a valid range yields None — the repository method never
executes or returns its availability query — although the hotel's room 1
is available and the claim expects a list containing it. -/
theorem search_rooms_returns_none :
    svc_rooms_get_filtered_by_time 1 5 7 dbC8 = Except.ok none ∧
    specSearchRooms 1 5 7 dbC8 =
      [{ id := 1, hotel_id := 1, price := 100, quantity := 2 }] :=
  ⟨rfl, rfl⟩

/-- Characters of a string lowered, as ILIKE compares them. -/
def lowerChars (s : String) : List Char := s.toList.map Char.toLower

/-- Whether the first list is an initial segment of the second. -/
def startsWithChars : List Char → List Char → Bool
  | [], _ => true
  | _ :: _, [] => false
  | p :: ps, c :: cs => p == c && startsWithChars ps cs

/-- Whether pat occurs contiguously inside the second list. -/
def containsChars (pat : List Char) : List Char → Bool
  | [] => pat.isEmpty
  | c :: cs => startsWithChars pat (c :: cs) || containsChars pat cs

/-- SQL ILIKE with a pattern of the form percent-pat-percent:
case-insensitive substring test. -/
def ilike (s pat : String) : Bool :=
  containsChars (lowerChars pat) (lowerChars s)

/-- HotelsRepository.get_hotels_by_time (src/repositories/hotels.py lines
46-79).  The inner hotel_ids query selects rooms.hotel_id for available
rooms; a truthy title or location filter references the hotels table, which
SQLAlchemy adds as a second, unjoined from-clause entry, so those filters
range over a cartesian product of available rooms and hotels; limit and
offset apply to the inner rows; the outer get_filtered returns every hotel
whose id occurs among them. -/
def get_hotels_by_time (date_from date_to : Int) (title location : String)
    (limit offset : Nat) (db : DB) : List Hotel :=
  let avail := rooms_ids_for_booking date_from date_to none db
  let availRooms := db.rooms.filter (fun r => avail.contains r.id)
  let rows : List Nat :=
    if title.isEmpty && location.isEmpty then availRooms.map Room.hotel_id
    else
      availRooms.flatMap (fun r =>
        (db.hotels.filter (fun h =>
          (title.isEmpty || ilike h.title title) &&
          (location.isEmpty || ilike h.location location))).map
          (fun _ => r.hotel_id))
  let hotel_ids := (rows.drop offset).take limit
  db.hotels.filter (fun h => hotel_ids.contains h.id)

/-- Concrete failing input for the hotel search: the only available room
belongs to hotel 2 ("Mountain Lodge"); hotel 1 is "Beach Resort". -/
def dbC9 : DB :=
  { rooms := [{ id := 10, hotel_id := 2, price := 100, quantity := 1 }],
    hotels := [{ id := 1, title := "Beach Resort", location := "Coast" },
               { id := 2, title := "Mountain Lodge", location := "Alps" }],
    bookings := [], room_facilities := [], next_booking_id := 0 }

/-- C9 (the code evaluated at the failing input): searching hotels with
title filter "beach" returns "Mountain Lodge", whose title does not
contain "beach": the filter is evaluated against an unjoined cartesian
copy of the hotels table (which "Beach Resort" satisfies), not against the
hotel of the available room. -/
theorem search_hotels_title_filter_violated :
    get_hotels_by_time 5 7 "beach" "" 5 0 dbC9 =
      [{ id := 2, title := "Mountain Lodge", location := "Alps" }] ∧
    ilike "Mountain Lodge" "beach" = false :=
  ⟨rfl, rfl⟩

end FastapiHotels
